import Mathlib

/-!
Verification development for the Slic3r model / arrangement core
(`xs/src/libslic3r/Model.cpp`).

The C++ code is shallowly embedded over exact rational arithmetic (`ℚ`).
Machine doubles become rationals; the external math library functions
`cos`/`sin` are threaded through as explicit function parameters
`(cosf sinf : ℚ → ℚ)` applied to the stored rotation angle, exactly where
the source calls `cos(this->rotation)` / `sin(this->rotation)`.
External collaborators that are not part of the translated source
(libnest2d's `arrangeIndexed`, `Slic3r::Geometry::arrange`) are modelled
by passing their outcome in as data.
-/

namespace Slic3r

/-- Two dimensional point with rational coordinates (Slic3r `Pointf`). -/
@[ext]
structure Pointf where
  x : ℚ
  y : ℚ
  deriving DecidableEq

/-- Three dimensional point with rational coordinates (Slic3r `Pointf3`). -/
@[ext]
structure Pointf3 where
  x : ℚ
  y : ℚ
  z : ℚ
  deriving DecidableEq

instance : Add Pointf := ⟨fun a b => ⟨a.x + b.x, a.y + b.y⟩⟩

/-- Axis selector, as in Slic3r `Axis`. -/
inductive Axis
  | X
  | Y
  | Z
  deriving DecidableEq

/-- Modelled from the spec: Slic3r `BoundingBoxf3` (BoundingBox.hpp is not in
src). A box carries min/max corners and a `defined` flag; a default
constructed box has zero corners and is undefined ("empty"). -/
@[ext]
structure BoundingBoxf3 where
  min : Pointf3
  max : Pointf3
  defined : Bool
  deriving DecidableEq

/-- The default-constructed, undefined ("empty") bounding box. -/
def emptyBox : BoundingBoxf3 := ⟨⟨0, 0, 0⟩, ⟨0, 0, 0⟩, false⟩

/-- Modelled from the spec: `BoundingBoxf3::merge(Pointf3)` — componentwise
min/max once defined, otherwise the box snaps to the point. -/
def BoundingBoxf3.mergePt (bb : BoundingBoxf3) (p : Pointf3) : BoundingBoxf3 :=
  if bb.defined then
    ⟨⟨Min.min bb.min.x p.x, Min.min bb.min.y p.y, Min.min bb.min.z p.z⟩,
     ⟨Max.max bb.max.x p.x, Max.max bb.max.y p.y, Max.max bb.max.z p.z⟩, true⟩
  else ⟨p, p, true⟩

/-- Modelled from the spec: `BoundingBoxf3::merge(BoundingBoxf3)`. -/
def BoundingBoxf3.merge (bb other : BoundingBoxf3) : BoundingBoxf3 :=
  if other.defined then
    if bb.defined then
      ⟨⟨Min.min bb.min.x other.min.x, Min.min bb.min.y other.min.y,
        Min.min bb.min.z other.min.z⟩,
       ⟨Max.max bb.max.x other.max.x, Max.max bb.max.y other.max.y,
        Max.max bb.max.z other.max.z⟩, true⟩
    else other
  else bb

/-- Box size `max - min` (`BoundingBoxf3::size()`); computed from the stored
corners whether or not the box is defined, as in the C++ (an undefined box
has zero corners, hence zero size). -/
def BoundingBoxf3.size (bb : BoundingBoxf3) : Pointf3 :=
  ⟨bb.max.x - bb.min.x, bb.max.y - bb.min.y, bb.max.z - bb.min.z⟩

/-- Box center (`BoundingBoxf3::center()`). -/
def BoundingBoxf3.center (bb : BoundingBoxf3) : Pointf3 :=
  ⟨(bb.max.x + bb.min.x) / 2, (bb.max.y + bb.min.y) / 2, (bb.max.z + bb.min.z) / 2⟩

/-- Box translation (`BoundingBoxf3::translate(x, y, z)`). -/
def BoundingBoxf3.translate (bb : BoundingBoxf3) (x y z : ℚ) : BoundingBoxf3 :=
  { bb with
    min := ⟨bb.min.x + x, bb.min.y + y, bb.min.z + z⟩,
    max := ⟨bb.max.x + x, bb.max.y + y, bb.max.z + z⟩ }

/-- Modelled from the spec: `BoundingBoxf3::contains` — the other box lies
componentwise inside this one (both boxes defined). -/
def BoundingBoxf3.contains (bb other : BoundingBoxf3) : Bool :=
  bb.defined && other.defined &&
    decide (bb.min.x ≤ other.min.x) && decide (other.max.x ≤ bb.max.x) &&
    decide (bb.min.y ≤ other.min.y) && decide (other.max.y ≤ bb.max.y) &&
    decide (bb.min.z ≤ other.min.z) && decide (other.max.z ≤ bb.max.z)

/-- Modelled from the spec: `BoundingBoxf3::intersects` — the closed boxes
overlap on every axis (both boxes defined). -/
def BoundingBoxf3.intersects (bb other : BoundingBoxf3) : Bool :=
  bb.defined && other.defined &&
    decide (bb.min.x ≤ other.max.x) && decide (other.min.x ≤ bb.max.x) &&
    decide (bb.min.y ≤ other.max.y) && decide (other.min.y ≤ bb.max.y) &&
    decide (bb.min.z ≤ other.max.z) && decide (other.min.z ≤ bb.max.z)

/-- Two dimensional bounding box (Slic3r `BoundingBoxf`), used for the print
bed ("bin") argument of the arrangement routines. -/
structure BoundingBoxf where
  min : Pointf
  max : Pointf
  defined : Bool
  deriving DecidableEq

/-- One STL facet: three vertices (`stl_facet.vertex[0..2]`). -/
structure STLFacet where
  v0 : Pointf3
  v1 : Pointf3
  v2 : Pointf3
  deriving DecidableEq

/-- A triangle mesh is its facet list (`TriangleMesh` / `stl.facet_start`). -/
abbrev TriangleMesh := List STLFacet

/-- Concatenation-map helper (used to flatten nested per-object loops). -/
def catMap (f : α → List β) : List α → List β
  | [] => []
  | a :: as => f a ++ catMap f as

/-- All vertices of a mesh, in facet order, each facet contributing its three
vertices — the iteration order of the C++ loops over
`stl.facet_start[f].vertex[i]`. -/
def vertices (mesh : TriangleMesh) : List Pointf3 :=
  catMap (fun f => [f.v0, f.v1, f.v2]) mesh

/-- Bounding box of a point list, folding `merge(point)` left to right from
the default box, as every C++ vertex loop does. -/
def bboxOfPoints (ps : List Pointf3) : BoundingBoxf3 :=
  ps.foldl BoundingBoxf3.mergePt emptyBox

/-- Mesh bounding box (`TriangleMesh::bounding_box()`, external to src;
it scans all facet vertices). -/
def mesh_bounding_box (mesh : TriangleMesh) : BoundingBoxf3 :=
  bboxOfPoints (vertices mesh)

/-- Mesh translation (`TriangleMesh::translate`). -/
def meshTranslate (mesh : TriangleMesh) (x y z : ℚ) : TriangleMesh :=
  mesh.map fun f =>
    ⟨⟨f.v0.x + x, f.v0.y + y, f.v0.z + z⟩,
     ⟨f.v1.x + x, f.v1.y + y, f.v1.z + z⟩,
     ⟨f.v2.x + x, f.v2.y + y, f.v2.z + z⟩⟩

/-- Apply a vertex map to every vertex of a mesh (used to model the external
`TriangleMesh::scale/rotate/mirror/transform` operations). -/
def meshMap (g : Pointf3 → Pointf3) (mesh : TriangleMesh) : TriangleMesh :=
  mesh.map fun f => ⟨g f.v0, g f.v1, g f.v2⟩

/-- Mesh scaling by a versor (`TriangleMesh::scale(versor)`). -/
def meshScale (mesh : TriangleMesh) (v : Pointf3) : TriangleMesh :=
  meshMap (fun p => ⟨p.x * v.x, p.y * v.y, p.z * v.z⟩) mesh

/-- Mesh mirroring about an axis (`TriangleMesh::mirror(axis)`). -/
def meshMirror (mesh : TriangleMesh) (ax : Axis) : TriangleMesh :=
  meshMap
    (fun p =>
      match ax with
      | Axis.X => ⟨-p.x, p.y, p.z⟩
      | Axis.Y => ⟨p.x, -p.y, p.z⟩
      | Axis.Z => ⟨p.x, p.y, -p.z⟩)
    mesh

/-- Print volume classification of an instance
(`ModelInstance::EPrintVolumeState`). -/
inductive PVS
  | PVS_Inside
  | PVS_Partly_Outside
  | PVS_Fully_Outside
  deriving DecidableEq

/-- One placed copy of an object (`ModelInstance`): 2D offset, Z rotation
angle, uniform scaling factor and the stored print volume classification. -/
structure ModelInstance where
  offset : Pointf
  rotation : ℚ
  scaling_factor : ℚ
  print_volume_state : PVS
  deriving DecidableEq

/-- Modelled from the spec: the `ModelInstance` constructor defaults
(rotation 0, scaling factor 1, offset at the origin; Model.hpp is not in
src). -/
def defaultModelInstance : ModelInstance := ⟨⟨0, 0⟩, 0, 1, PVS.PVS_Inside⟩

/-- Slic3r `EPSILON` (libslic3r.h, not in src): `1e-4`. -/
def EPSILON : ℚ := 1 / 10000

/-- Slic3r `SCALING_FACTOR` (libslic3r.h, not in src): `0.000001`,
the conversion factor between internal clipper integer units and mm. -/
def SCALING_FACTOR : ℚ := 1 / 1000000

/-- Rotation of a vertex about the Z axis given the values `c`/`s` the code
obtains from `cos(rotation)` / `sin(rotation)` — the loop body of
`ModelInstance::transform_mesh_bounding_box`. -/
def rotPt (c s : ℚ) (v : Pointf3) : Pointf3 :=
  ⟨c * v.x - s * v.y, s * v.x + c * v.y, v.z⟩

/-- The post-processing of `transform_mesh_bounding_box` on the merged
box of the rotated vertices (Model.cpp:1420-1437): unless the box is empty,
scale min and max by the scaling factor when it differs from 1 by more than
`EPSILON`, then add the instance offset to the x/y bounds unless
`dont_translate` is set. The source's `empty(bbox)` test is modelled from
the spec as the box being undefined (a zero-facet mesh). -/
def tmbbPost (inst : ModelInstance) (dont_translate : Bool) (bbox : BoundingBoxf3) :
    BoundingBoxf3 :=
  if bbox.defined then
    let bbox2 :=
      if EPSILON < |inst.scaling_factor - 1| then
        { bbox with
          min := ⟨bbox.min.x * inst.scaling_factor, bbox.min.y * inst.scaling_factor,
                  bbox.min.z * inst.scaling_factor⟩,
          max := ⟨bbox.max.x * inst.scaling_factor, bbox.max.y * inst.scaling_factor,
                  bbox.max.z * inst.scaling_factor⟩ }
      else bbox
    if dont_translate then bbox2
    else
      { bbox2 with
        min := ⟨bbox2.min.x + inst.offset.x, bbox2.min.y + inst.offset.y, bbox2.min.z⟩,
        max := ⟨bbox2.max.x + inst.offset.x, bbox2.max.y + inst.offset.y, bbox2.max.z⟩ }
  else bbox

/-- `ModelInstance::transform_mesh_bounding_box(mesh, dont_translate)`
(Model.cpp:1403): merge the Z-rotated vertices into a box, then apply the
scale/translate post-processing `tmbbPost` to the box itself. -/
def ModelInstance.transform_mesh_bounding_box (cosf sinf : ℚ → ℚ)
    (inst : ModelInstance) (mesh : TriangleMesh) (dont_translate : Bool) :
    BoundingBoxf3 :=
  tmbbPost inst dont_translate
    (bboxOfPoints ((vertices mesh).map (rotPt (cosf inst.rotation) (sinf inst.rotation))))

/-- Componentwise affine map `p ↦ a * p + t` on points (the shape of both
the box scaling and the box translation steps of the transform pipeline). -/
def affMap (a t1 t2 t3 : ℚ) (p : Pointf3) : Pointf3 :=
  ⟨a * p.x + t1, a * p.y + t2, a * p.z + t3⟩

/-- The same affine map applied to the two corners of a defined box (an
undefined box is left alone). -/
def boxAff (a t1 t2 t3 : ℚ) (bb : BoundingBoxf3) : BoundingBoxf3 :=
  if bb.defined then ⟨affMap a t1 t2 t3 bb.min, affMap a t1 t2 t3 bb.max, true⟩
  else bb

/-- The vertex map of the per-facet loops in
`ModelObject::check_instances_print_volume_state` and
`ModelObject::tight_bounding_box`: scale, rotate about Z, then translate in
x/y. -/
def instPoint (cosf sinf : ℚ → ℚ) (inst : ModelInstance) (v : Pointf3) : Pointf3 :=
  let c := cosf inst.rotation
  let s := sinf inst.rotation
  let px := v.x * inst.scaling_factor
  let py := v.y * inst.scaling_factor
  let pz := v.z * inst.scaling_factor
  ⟨c * px - s * py + inst.offset.x, s * px + c * py + inst.offset.y, pz⟩

/-- The eight corners of a box, used to transform a box by an affine map
(`BoundingBoxf3::transformed`, external to src). -/
def BoundingBoxf3.corners (bb : BoundingBoxf3) : List Pointf3 :=
  [⟨bb.min.x, bb.min.y, bb.min.z⟩, ⟨bb.max.x, bb.min.y, bb.min.z⟩,
   ⟨bb.min.x, bb.max.y, bb.min.z⟩, ⟨bb.max.x, bb.max.y, bb.min.z⟩,
   ⟨bb.min.x, bb.min.y, bb.max.z⟩, ⟨bb.max.x, bb.min.y, bb.max.z⟩,
   ⟨bb.min.x, bb.max.y, bb.max.z⟩, ⟨bb.max.x, bb.max.y, bb.max.z⟩]

/-- `ModelInstance::transform_bounding_box` (Model.cpp:1441): the Eigen
affine map translate∘rotate∘scale applied to the box. Modelled from the
spec for the external `BoundingBoxf3::transformed`: map the eight corners
and take their bounding box; an undefined box stays as it is. -/
def ModelInstance.transform_bounding_box (cosf sinf : ℚ → ℚ)
    (inst : ModelInstance) (bb : BoundingBoxf3) (dont_translate : Bool) :
    BoundingBoxf3 :=
  let c := cosf inst.rotation
  let s := sinf inst.rotation
  if bb.defined then
    bboxOfPoints (bb.corners.map fun p =>
      let q := rotPt c s ⟨inst.scaling_factor * p.x, inst.scaling_factor * p.y,
                          inst.scaling_factor * p.z⟩
      if dont_translate then q else ⟨q.x + inst.offset.x, q.y + inst.offset.y, q.z⟩)
  else bb

/-- A `ModelVolume`: a raw mesh plus the modifier flag. -/
structure ModelVolume where
  mesh : TriangleMesh
  modifier : Bool
  deriving DecidableEq

/-- A `ModelObject`: its volumes, instances, and the cached bounding box with
its validity flag (`m_bounding_box` / `m_bounding_box_valid`). -/
structure ModelObject where
  volumes : List ModelVolume
  instances : List ModelInstance
  m_bounding_box : BoundingBoxf3
  m_bounding_box_valid : Bool
  deriving DecidableEq

/-- Modelled from the spec: `ModelObject::invalidate_bounding_box()` is an
inline in Model.hpp (not in src) that clears the validity flag. -/
def ModelObject.invalidate_bounding_box (o : ModelObject) : ModelObject :=
  { o with m_bounding_box_valid := false }

/-- `ModelObject::add_volume(mesh)` (Model.cpp:869): append a non-modifier
volume and invalidate the cached box. -/
def ModelObject.add_volume (o : ModelObject) (mesh : TriangleMesh) : ModelObject :=
  ({ o with volumes := o.volumes ++ [ModelVolume.mk mesh false] }).invalidate_bounding_box

/-- `ModelObject::delete_volume(idx)` (Model.cpp:893). -/
def ModelObject.delete_volume (o : ModelObject) (idx : ℕ) : ModelObject :=
  ({ o with volumes := o.volumes.eraseIdx idx }).invalidate_bounding_box

/-- `ModelObject::clear_volumes()` (Model.cpp:901). -/
def ModelObject.clear_volumes (o : ModelObject) : ModelObject :=
  ({ o with volumes := [] }).invalidate_bounding_box

/-- `ModelObject::add_instance()` (Model.cpp:909): append a default
constructed instance and invalidate the cached box. -/
def ModelObject.add_instance (o : ModelObject) : ModelObject :=
  ({ o with instances := o.instances ++ [defaultModelInstance] }).invalidate_bounding_box

/-- `ModelObject::add_instance(other)` (Model.cpp:917): append a copy of an
existing instance and invalidate the cached box. -/
def ModelObject.add_instance_copy (o : ModelObject) (i : ModelInstance) : ModelObject :=
  ({ o with instances := o.instances ++ [i] }).invalidate_bounding_box

/-- `ModelObject::delete_instance(idx)` (Model.cpp:925). -/
def ModelObject.delete_instance (o : ModelObject) (idx : ℕ) : ModelObject :=
  ({ o with instances := o.instances.eraseIdx idx }).invalidate_bounding_box

/-- `ModelObject::clear_instances()` (Model.cpp:938). -/
def ModelObject.clear_instances (o : ModelObject) : ModelObject :=
  ({ o with instances := [] }).invalidate_bounding_box

/-- `ModelObject::translate(x, y, z)` (Model.cpp:1093): translate every
volume mesh and, when the cached bounding box is valid, translate the cache
in place — the validity flag is NOT cleared. -/
def ModelObject.translate (o : ModelObject) (x y z : ℚ) : ModelObject :=
  { o with
    volumes := o.volumes.map fun v : ModelVolume => { v with mesh := meshTranslate v.mesh x y z },
    m_bounding_box :=
      if o.m_bounding_box_valid then o.m_bounding_box.translate x y z
      else o.m_bounding_box }

/-- `ModelObject::scale(versor)` (Model.cpp:1101): scale every volume mesh
and invalidate the cached box. -/
def ModelObject.scale (o : ModelObject) (versor : Pointf3) : ModelObject :=
  ({ o with
     volumes := o.volumes.map fun v : ModelVolume => { v with mesh := meshScale v.mesh versor }
   }).invalidate_bounding_box

/-- `ModelObject::rotate(angle, axis)` (Model.cpp:1110): rotate every volume
mesh (the external `TriangleMesh::rotate` is modelled as the vertex map `g`)
and invalidate the cached box. -/
def ModelObject.rotate (o : ModelObject) (g : Pointf3 → Pointf3) : ModelObject :=
  ({ o with
     volumes := o.volumes.map fun v : ModelVolume => { v with mesh := meshMap g v.mesh }
   }).invalidate_bounding_box

/-- `ModelObject::mirror(axis)` (Model.cpp:1132). -/
def ModelObject.mirror (o : ModelObject) (ax : Axis) : ModelObject :=
  ({ o with
     volumes := o.volumes.map fun v : ModelVolume => { v with mesh := meshMirror v.mesh ax }
   }).invalidate_bounding_box

/-- `ModelObject::transform(matrix3x4)` (Model.cpp:1118): a null matrix is a
no-op; otherwise transform every volume mesh (the external
`TriangleMesh::transform` is modelled as the vertex map) and invalidate the
cached box. -/
def ModelObject.transform (o : ModelObject) (mat : Option (Pointf3 → Pointf3)) : ModelObject :=
  match mat with
  | none => o
  | some g =>
    ({ o with
       volumes := o.volumes.map fun v : ModelVolume => { v with mesh := meshMap g v.mesh }
     }).invalidate_bounding_box

/-- `ModelObject::bounding_box()` (Model.cpp:948): when the cache is invalid,
recompute — merge the raw boxes of the non-modifier volumes, then merge each
instance's affine transform of that single raw box — and store it. Returns
the box together with the object (the C++ mutates the mutable cache fields
of a const object). -/
def ModelObject.bounding_box (cosf sinf : ℚ → ℚ) (o : ModelObject) :
    BoundingBoxf3 × ModelObject :=
  if o.m_bounding_box_valid then (o.m_bounding_box, o)
  else
    let raw_bbox := o.volumes.foldl
      (fun bb v => if v.modifier then bb else bb.merge (mesh_bounding_box v.mesh)) emptyBox
    let bb := o.instances.foldl
      (fun bb i => bb.merge (i.transform_bounding_box cosf sinf raw_bbox false)) emptyBox
    (bb, { o with m_bounding_box := bb, m_bounding_box_valid := true })

/-- Failure modes of the bounding-box accessors: `confess` is the explicit
loud `CONFESS(...)` abort present in the source; `ub` marks an unchecked
out-of-bounds vector access (undefined behavior — no check exists in the
code at that point). -/
inductive CFail
  | confess
  | ub
  deriving DecidableEq

/-- Whether a result is a deliberate loud failure (`CONFESS`), as opposed to
succeeding or to running into unchecked undefined behavior. -/
def failsLoudly : Except CFail BoundingBoxf3 → Bool
  | Except.error CFail.confess => true
  | _ => false

/-- Loop of `ModelObject::raw_bounding_box()` (Model.cpp:1039): for each
non-modifier volume, CONFESS when there are no instances, else merge the
first instance's untranslated transformed mesh box. -/
def rawBBLoop (cosf sinf : ℚ → ℚ) (insts : List ModelInstance) :
    List ModelVolume → BoundingBoxf3 → Except CFail BoundingBoxf3
  | [], bb => Except.ok bb
  | v :: vs, bb =>
    if v.modifier then rawBBLoop cosf sinf insts vs bb
    else
      match insts with
      | [] => Except.error CFail.confess
      | i :: _ =>
        rawBBLoop cosf sinf insts vs
          (bb.merge (i.transform_mesh_bounding_box cosf sinf v.mesh true))

/-- `ModelObject::raw_bounding_box()` (Model.cpp:1039). -/
def ModelObject.raw_bounding_box (cosf sinf : ℚ → ℚ) (o : ModelObject) :
    Except CFail BoundingBoxf3 :=
  rawBBLoop cosf sinf o.instances o.volumes emptyBox

/-- Loop of `ModelObject::instance_bounding_box(idx, dont_translate)`
(Model.cpp:1051): for each non-modifier volume the code reads
`instances[idx]` with no bounds check — an out-of-range index is undefined
behavior (`CFail.ub`), not a deliberate failure. -/
def instBBLoop (cosf sinf : ℚ → ℚ) (oinst : Option ModelInstance) (dont_translate : Bool) :
    List ModelVolume → BoundingBoxf3 → Except CFail BoundingBoxf3
  | [], bb => Except.ok bb
  | v :: vs, bb =>
    if v.modifier then instBBLoop cosf sinf oinst dont_translate vs bb
    else
      match oinst with
      | none => Except.error CFail.ub
      | some i =>
        instBBLoop cosf sinf oinst dont_translate vs
          (bb.merge (i.transform_mesh_bounding_box cosf sinf v.mesh dont_translate))

/-- `ModelObject::instance_bounding_box(idx, dont_translate)`
(Model.cpp:1051). -/
def ModelObject.instance_bounding_box (cosf sinf : ℚ → ℚ) (o : ModelObject)
    (idx : ℕ) (dont_translate : Bool) : Except CFail BoundingBoxf3 :=
  instBBLoop cosf sinf o.instances[idx]? dont_translate o.volumes emptyBox

/-- The same volume fold specialised to an in-range instance (the loops in
`Model::arrange_objects` only query valid indices, where
`instance_bounding_box` cannot fail). -/
def instBBoxDirect (cosf sinf : ℚ → ℚ) (o : ModelObject) (inst : ModelInstance)
    (dont_translate : Bool) : BoundingBoxf3 :=
  o.volumes.foldl
    (fun bb v =>
      if v.modifier then bb
      else bb.merge (inst.transform_mesh_bounding_box cosf sinf v.mesh dont_translate))
    emptyBox

/-- Snug transformed box of one instance against ONE volume — the inner
facet/vertex double loop of `ModelObject::check_instances_print_volume_state`
(Model.cpp:1246-1278). -/
def vol_inst_bbox (cosf sinf : ℚ → ℚ) (inst : ModelInstance) (vol : ModelVolume) :
    BoundingBoxf3 :=
  bboxOfPoints ((vertices vol.mesh).map (instPoint cosf sinf inst))

/-- The classification chain of Model.cpp:1280-1285: contained → Inside,
else intersecting → PartlyOutside, else FullyOutside. -/
def classifyPVS (print_volume bb : BoundingBoxf3) : PVS :=
  if print_volume.contains bb then PVS.PVS_Inside
  else if print_volume.intersects bb then PVS.PVS_Partly_Outside
  else PVS.PVS_Fully_Outside

/-- One iteration of the outer volume loop of
`check_instances_print_volume_state`: a non-modifier volume overwrites every
instance's stored state with the classification of that volume's snug box. -/
def pvsStep (cosf sinf : ℚ → ℚ) (print_volume : BoundingBoxf3)
    (insts : List ModelInstance) (vol : ModelVolume) : List ModelInstance :=
  if vol.modifier then insts
  else
    insts.map fun inst =>
      { inst with print_volume_state := classifyPVS print_volume (vol_inst_bbox cosf sinf inst vol) }

/-- `ModelObject::check_instances_print_volume_state(print_volume)`
(Model.cpp:1238): the outer loop runs over the volumes, the inner loop over
the instances, so the state written by an earlier non-modifier volume is
overwritten by every later one. -/
def ModelObject.check_instances_print_volume_state (cosf sinf : ℚ → ℚ)
    (print_volume : BoundingBoxf3) (o : ModelObject) : ModelObject :=
  { o with instances := o.volumes.foldl (pvsStep cosf sinf print_volume) o.instances }

/-- The last non-modifier volume of a list (the volume whose classification
survives the overwriting loop of `check_instances_print_volume_state`). -/
def lastNonMod : List ModelVolume → Option ModelVolume
  | [] => none
  | v :: vs =>
    match lastNonMod vs with
    | some w => some w
    | none => if v.modifier then none else some v

/-- A `Model`: the ordered object sequence and the material map. Each owned
object is paired with a natural number modelling its heap address, so that
the pointer-identity search of `Model::delete_object(ModelObject*)` can be
expressed; distinct live objects have distinct addresses. Materials are kept
as their id list (their contents play no role in the claims below). -/
structure Model where
  objects : List (ℕ × ModelObject)
  materials : List String
  deriving DecidableEq

/-- First-match erasure by pointer identity — the loop of
`Model::delete_object(ModelObject*)` (Model.cpp:165-180). -/
def eraseFirstId (a : ℕ) : List (ℕ × ModelObject) → List (ℕ × ModelObject)
  | [] => []
  | x :: xs => if x.1 = a then xs else x :: eraseFirstId a xs

/-- `Model::delete_object(ModelObject*)` (Model.cpp:165): a null pointer
returns immediately; otherwise the first object with the same address is
deleted and erased; if none matches, the loop falls through and nothing
changes. The function is `void` and throws nothing. -/
def Model.delete_object (m : Model) (p : Option ℕ) : Model :=
  match p with
  | none => m
  | some a => { m with objects := eraseFirstId a m.objects }

/-- Recursion of `Model::bounding_box()` (Model.cpp:235): merge every
object's cached-or-recomputed box; the per-object cache updates are threaded
through (the C++ mutates the mutable cache fields). -/
def modelBBLoop (cosf sinf : ℚ → ℚ) :
    List (ℕ × ModelObject) → BoundingBoxf3 → BoundingBoxf3 × List (ℕ × ModelObject)
  | [], bb => (bb, [])
  | (oid, o) :: rest, bb =>
    let pr := o.bounding_box cosf sinf
    let rec2 := modelBBLoop cosf sinf rest (bb.merge pr.1)
    (rec2.1, (oid, pr.2) :: rec2.2)

/-- `Model::bounding_box()` (Model.cpp:235). -/
def Model.bounding_box (cosf sinf : ℚ → ℚ) (m : Model) : BoundingBoxf3 × Model :=
  let pr := modelBBLoop cosf sinf m.objects emptyBox
  (pr.1, { m with objects := pr.2 })

/-- `_arrange(sizes, dist, bb, out)` (Model.cpp:278): an empty size list
succeeds immediately (before the external packer would crash on it);
otherwise the external `Slic3r::Geometry::arrange` (not in src) is invoked,
and on failure retried without the bin when a bin pointer was supplied. The
externals' outcomes are passed in as `geomFirst`/`geomRetry` and the
positions they would write as `extPositions`. -/
def _arrange (sizes : List Pointf) (bbIsSome : Bool)
    (geomFirst geomRetry : Bool) (extPositions : List Pointf) : Bool × List Pointf :=
  if sizes.isEmpty then (true, [])
  else if geomFirst then (true, extPositions)
  else if bbIsSome then (geomRetry, extPositions)
  else (false, extPositions)

/-- Truncation toward zero, as `static_cast<Coord>` does on a double. -/
def ratTrunc (q : ℚ) : ℤ := q.num / (q.den : ℤ)

/-- A placed item of the nesting result: the translation the packer chose
(in integer clipper units, `ClipperLib::cInt`) and the rotation in
radians. -/
structure NestItem where
  tx : ℤ
  ty : ℤ
  rot : ℚ
  deriving DecidableEq

/-- One pack group of `_IndexedPackGroup`: the placed items of one bin,
paired with their index into the input shape sequence. -/
abbrev PackGroup := List (ℕ × NestItem)

/-- Point update at one list position (the C++ writes through the
`ModelInstance*` stored at that index of the shape map). -/
def modifyAt (g : α → α) : ℕ → List α → List α
  | _, [] => []
  | 0, a :: as => g a :: as
  | n + 1, a :: as => a :: modifyAt g n as

/-- The instance update of `applyResult` (Model.cpp:581-602): the item's
rotation is stored, and its translation is scaled to mm with the batch
offset added to x. -/
def setFromItem (it : NestItem) (batch_offset : ℤ) (inst : ModelInstance) : ModelInstance :=
  { inst with
    rotation := it.rot,
    offset := ⟨(it.tx : ℚ) * SCALING_FACTOR + (batch_offset : ℚ),
               (it.ty : ℚ) * SCALING_FACTOR⟩ }

/-- `applyResult(group, batch_offset)` (Model.cpp:581): write every placed
item of one pack group back onto the instance at its recorded index. -/
def applyResult (group : PackGroup) (batch_offset : ℤ)
    (shapemap : List ModelInstance) : List ModelInstance :=
  group.foldl (fun sm r => modifyAt (setFromItem r.2 batch_offset) r.1 sm) shapemap

/-- `STRIDE_PADDING` (Model.cpp:608). -/
def STRIDE_PADDING : ℚ := 6 / 5

/-- The group loop of the non-`first_bin_only` branch (Model.cpp:606-622):
each successive pack group is applied with an X batch offset grown by the
stride. -/
def applyGroups (stride : ℤ) :
    List PackGroup → ℤ → List ModelInstance → List ModelInstance
  | [], _, sm => sm
  | g :: gs, off, sm => applyGroups stride gs (off + stride) (applyResult g off sm)

/-- The write-back phase of `arr::arrange` (Model.cpp:604-622): with
`first_bin_only` only the first pack group is applied (batch offset 0);
otherwise every group is applied, strided along X by
`1.2 * bin_width * SCALING_FACTOR`. -/
def arr_applyAll (first_bin_only : Bool) (binWidth : ℤ) (result : List PackGroup)
    (shapemap : List ModelInstance) : List ModelInstance :=
  if first_bin_only then applyResult (result.headD []) 0 shapemap
  else applyGroups (ratTrunc (STRIDE_PADDING * (binWidth : ℚ) * SCALING_FACTOR)) result 0 shapemap

/-- The return value of `arr::arrange` (Model.cpp:626): `ret` stays `true`,
so the call reports success exactly when the nesting produced a single pack
group. -/
def arr_arrange_ret (result : List PackGroup) : Bool :=
  decide (result.length = 1)

/-- `arr::arrange` at the shape-map level (Model.cpp:468): the nesting
outcome `result` of the external libnest2d `arrangeIndexed` is applied to
the instances and the single-group success flag is returned. -/
def arr_arrange (shapemap : List ModelInstance) (result : List PackGroup)
    (first_bin_only : Bool) (binWidth : ℤ) : List ModelInstance × Bool :=
  (arr_applyAll first_bin_only binWidth result shapemap, arr_arrange_ret result)

/-- Outcomes of the external collaborators of the arrangement routines:
the libnest2d nesting result (bin path) and the `Geometry::arrange`
success flags and output positions (fallback path). -/
structure ArrangeExt where
  nestResult : List PackGroup
  geomFirst : Bool
  geomRetry : Bool
  positions : List Pointf
  deriving DecidableEq

/-- All instances of a model in object order — the order in which
`projectModelFromTop` builds the shape map and in which `arrange_objects`
collects instance sizes. -/
def flatInstancesOf (m : Model) : List ModelInstance :=
  catMap (fun p => p.2.instances) m.objects

/-- Split a flat instance list back into per-object runs of the given
lengths. -/
def splitLens : List ℕ → List ModelInstance → List (List ModelInstance)
  | [], _ => []
  | n :: ns, l => l.take n :: splitLens ns (l.drop n)

/-- Redistribute an updated flat instance list onto the model's objects and
invalidate every object's cached box, as both arrangement paths do at their
end. -/
def Model.withFlatInstances (m : Model) (flat : List ModelInstance) : Model :=
  { m with
    objects :=
      (m.objects.zip (splitLens (m.objects.map fun p => p.2.instances.length) flat)).map
        fun pr => (pr.1.1, ({ pr.1.2 with instances := pr.2 }).invalidate_bounding_box) }

/-- The offset assignment of the fallback loop (Model.cpp:660-666):
`i->offset = positions[idx] - instance_centers[idx]`, walking the three
lists in step. The C++ indexes `positions` unchecked; a too-short positions
list (impossible when the external packer fills one slot per size) leaves
the remaining instances as they are. -/
def applyPositions : List ModelInstance → List Pointf → List Pointf → List ModelInstance
  | [], _, _ => []
  | i :: is, p :: ps, c :: cs =>
    { i with offset := ⟨p.x - c.x, p.y - c.y⟩ } :: applyPositions is ps cs
  | i :: is, _, _ => i :: is

/-- The fallback branch of `Model::arrange_objects` (Model.cpp:642-667):
collect each instance's snug untranslated box size and center, run
`_arrange`, return `false` early on failure — and also return the initial
`ret = false` after successfully applying the layout. -/
def Model.arrangeFallback (cosf sinf : ℚ → ℚ) (m : Model) (bbIsSome : Bool)
    (ext : ArrangeExt) : Model × Bool :=
  let data := catMap
    (fun p => p.2.instances.map fun i =>
      let bbox := instBBoxDirect cosf sinf p.2 i true
      (Pointf.mk bbox.size.x bbox.size.y, Pointf.mk bbox.center.x bbox.center.y))
    m.objects
  let ar := _arrange (data.map Prod.fst) bbIsSome ext.geomFirst ext.geomRetry ext.positions
  if ar.1 = false then (m, false)
  else
    (m.withFlatInstances (applyPositions (flatInstancesOf m) ar.2 (data.map Prod.snd)), false)

/-- `Model::arrange_objects(dist, bb, progressind)` (Model.cpp:632): with a
defined bin, delegate to `arr::arrange` (whose bin is the print-bed box
scaled into clipper units); otherwise run the fallback rectangular packing,
whose branch never sets `ret` and therefore reports `false` even on
success. -/
def Model.arrange_objects (cosf sinf : ℚ → ℚ) (m : Model)
    (bb : Option BoundingBoxf) (ext : ArrangeExt) : Model × Bool :=
  match bb with
  | some b =>
    if b.defined then
      let binMinX := ratTrunc (b.min.x / SCALING_FACTOR)
      let binMaxX := ratTrunc (b.max.x / SCALING_FACTOR)
      let pr := arr_arrange (flatInstancesOf m) ext.nestResult false (binMaxX - binMinX)
      (m.withFlatInstances pr.1, pr.2)
    else m.arrangeFallback cosf sinf true ext
  | none => m.arrangeFallback cosf sinf false ext

/-- `Model::duplicate(copies_num, dist, bb)` (Model.cpp:673): ask the
rectangular packer for `copies_num - 1` positions of the whole model's
bounding-box size; on failure CONFESS (modelled as the error result), else
append, for every object and every pre-existing instance, one translated
copy per position. -/
def Model.duplicate (cosf sinf : ℚ → ℚ) (m : Model) (copies_num : ℕ)
    (bb : Option BoundingBoxf) (ext : ArrangeExt) : Except String Model :=
  let pr := m.bounding_box cosf sinf
  let model_sizes : List Pointf := List.replicate (copies_num - 1) ⟨pr.1.size.x, pr.1.size.y⟩
  let ar := _arrange model_sizes bb.isSome ext.geomFirst ext.geomRetry ext.positions
  if ar.1 = false then
    Except.error ("Cannot duplicate part as the resulting objects would not fit on the print bed.")
  else
    Except.ok
      { pr.2 with
        objects := pr.2.objects.map fun p =>
          (p.1,
           ({ p.2 with
              instances := p.2.instances ++
                catMap
                  (fun i : ModelInstance =>
                    ar.2.map fun pos => { i with offset := i.offset + pos })
                  p.2.instances }).invalidate_bounding_box) }

/-- The nested grid loop of `Model::duplicate_objects_grid` (Model.cpp:720):
for `x_copy` in 1..x and `y_copy` in 1..y, add an instance (default
constructed, then its offset set to `(size + dist) * (copy - 1)` per
axis). -/
def addGrid (o : ModelObject) (sx sy dist : ℚ) (x y : ℕ) : ModelObject :=
  (List.range x).foldl
    (fun ob xc =>
      (List.range y).foldl
        (fun ob2 yc =>
          ob2.add_instance_copy
            { defaultModelInstance with offset := ⟨(sx + dist) * xc, (sy + dist) * yc⟩ })
        ob)
    o

/-- `Model::duplicate_objects_grid(x, y, dist)` (Model.cpp:710): rejected
for more than one or zero objects; otherwise the single object's instances
are cleared FIRST and only then is `bounding_box().size()` read, before the
grid instances are added. -/
def Model.duplicate_objects_grid (cosf sinf : ℚ → ℚ) (m : Model) (x y : ℕ)
    (dist : ℚ) : Except String Model :=
  if 1 < m.objects.length then
    Except.error ("Grid duplication is not supported with multiple objects")
  else
    match m.objects with
    | [] => Except.error ("No objects!")
    | (oid, object) :: rest =>
      let ob1 := object.clear_instances
      let pr := ob1.bounding_box cosf sinf
      Except.ok
        { m with objects := (oid, addGrid pr.2 pr.1.size.x pr.1.size.y dist x y) :: rest }

/-- The custom objective function installed by `arr::arrange`
(Model.cpp:540-569): the score is the distance `d` of the current item's
reference vertex from the bin center, normalised by `norm`; when a bin is
present and the pile's bounding box would not fit it, the score is replaced
by `2 * penality - score`. The geometric quantities (`d` from the external
`PointLike::distance`, the fit test from `NfpPlacer::wouldFit`) enter as
parameters. -/
def object_function (hasbin : Bool) (penality norm d : ℚ) (fits : Bool) : ℚ :=
  let score := d / norm
  if hasbin && !fits then 2 * penality - score else score

/-- The vertex map the spec describes for the transform pipeline:
`v' = R_z(θ) * (s * v)`, plus the x/y offset unless untranslated. -/
def spec_transform_point (c s sf tx ty : ℚ) (v : Pointf3) : Pointf3 :=
  ⟨c * (sf * v.x) - s * (sf * v.y) + tx,
   s * (sf * v.x) + c * (sf * v.y) + ty,
   sf * v.z⟩

/-- The bounding box the claim attributes to
`transform_mesh_bounding_box`: the componentwise min/max box of the
fully-mapped vertices. -/
def spec_transformed_mesh_bbox (cosf sinf : ℚ → ℚ) (inst : ModelInstance)
    (mesh : TriangleMesh) (dont_translate : Bool) : BoundingBoxf3 :=
  bboxOfPoints ((vertices mesh).map
    (spec_transform_point (cosf inst.rotation) (sinf inst.rotation) inst.scaling_factor
      (if dont_translate then 0 else inst.offset.x)
      (if dont_translate then 0 else inst.offset.y)))

/-- The box the claim says `check_instances_print_volume_state` classifies:
the snug transformed box of an instance over ALL the object's non-modifier
geometry. -/
def spec_instance_snug_bbox (cosf sinf : ℚ → ℚ) (o : ModelObject)
    (inst : ModelInstance) : BoundingBoxf3 :=
  bboxOfPoints
    ((catMap (fun v => if v.modifier then [] else vertices v.mesh) o.volumes).map
      (instPoint cosf sinf inst))

/-- Cosine table of the identity rotation: every stored angle evaluates to
cosine 1 (used for concrete inputs whose rotation is zero). -/
def cosId : ℚ → ℚ := fun _ => 1

/-- Sine table of the identity rotation. -/
def sinId : ℚ → ℚ := fun _ => 0

/-- Cosine table of a quarter-turn rotation (cos = 0). -/
def cosQuarter : ℚ → ℚ := fun _ => 0

/-- Sine table of a quarter-turn rotation (sin = 1). -/
def sinQuarter : ℚ → ℚ := fun _ => 1

/-- Cosine table of a 3-4-5 rotation (cos = 3/5). -/
def cosPyth : ℚ → ℚ := fun _ => 3 / 5

/-- Sine table of a 3-4-5 rotation (sin = 4/5). -/
def sinPyth : ℚ → ℚ := fun _ => 4 / 5

/-- A one-facet mesh with bounding box `[0,1] × [0,1] × [0,0]`. -/
def meshA : TriangleMesh := [⟨⟨0, 0, 0⟩, ⟨1, 0, 0⟩, ⟨0, 1, 0⟩⟩]

/-- A one-facet mesh with bounding box `[1,2] × [0,1] × [0,0]`. -/
def meshB : TriangleMesh := [⟨⟨1, 0, 0⟩, ⟨2, 0, 0⟩, ⟨2, 1, 0⟩⟩]

/-- A one-facet mesh with bounding box `[0,1] × [0,1] × [0,1]` (unit size on
all three axes). -/
def meshUnit : TriangleMesh := [⟨⟨0, 0, 0⟩, ⟨1, 1, 0⟩, ⟨0, 1, 1⟩⟩]

/-- A one-facet mesh inside the print volume `pv0`. -/
def meshC5A : TriangleMesh := [⟨⟨1, 1, 1⟩, ⟨2, 1, 1⟩, ⟨1, 2, 2⟩⟩]

/-- A one-facet mesh entirely outside the print volume `pv0`. -/
def meshC5B : TriangleMesh := [⟨⟨20, 1, 1⟩, ⟨21, 1, 1⟩, ⟨20, 2, 2⟩⟩]

/-- An instance with the negative scaling factor -2. -/
def instNeg : ModelInstance := { defaultModelInstance with scaling_factor := -2 }

/-- An instance whose scaling factor deviates from 1 by half an `EPSILON`. -/
def instEps : ModelInstance := { defaultModelInstance with scaling_factor := 1 + 1 / 20000 }

/-- An instance with scaling factor 2 and a nonzero offset. -/
def instW : ModelInstance := { defaultModelInstance with scaling_factor := 2, offset := ⟨1, 2⟩ }

/-- An object with one non-modifier volume and zero instances. -/
def oNoInst : ModelObject := ⟨[⟨meshA, false⟩], [], emptyBox, false⟩

/-- An object with zero volumes and zero instances. -/
def oNoVols : ModelObject := ⟨[], [], emptyBox, false⟩

/-- An object with one non-modifier volume and one quarter-turn rotated
instance, cache not yet computed. -/
def oRot : ModelObject := ⟨[⟨meshB, false⟩], [defaultModelInstance], emptyBox, false⟩

/-- The two-volume object of the print-volume counterexample: one volume
inside the print volume and one entirely outside it, a single identity
instance. -/
def objC5 : ModelObject :=
  ⟨[⟨meshC5A, false⟩, ⟨meshC5B, false⟩], [defaultModelInstance], emptyBox, false⟩

/-- The print volume `[0,10]^3`. -/
def pv0 : BoundingBoxf3 := ⟨⟨0, 0, 0⟩, ⟨10, 10, 10⟩, true⟩

/-- A model holding one object (one unit-box volume, one instance). -/
def mGrid : Model :=
  ⟨[(0, ⟨[⟨meshUnit, false⟩], [defaultModelInstance], emptyBox, false⟩)], []⟩

/-- A model holding one object with one `meshA` volume and one default
instance, used for the `arrange_objects` fallback evaluation. -/
def mArr : Model :=
  ⟨[(0, ⟨[⟨meshA, false⟩], [defaultModelInstance], emptyBox, false⟩)], []⟩

/-- External outcomes for the fallback evaluation: the rectangular packer
succeeds on the first attempt and yields the single position (3,4). -/
def extArr : ArrangeExt := ⟨[], true, false, [⟨3, 4⟩]⟩

/-- A model with one object at address 7 and one material, used for the
`delete_object` claim. -/
def mDel : Model := ⟨[(7, oRot)], ["material_1"]⟩

/-- The offsets `duplicate_objects_grid(2,3,5)` actually produces on
`mGrid` (spacing `dist` = 5 alone). -/
def actualGridOffsets : List Pointf :=
  [⟨0, 0⟩, ⟨0, 5⟩, ⟨0, 10⟩, ⟨5, 0⟩, ⟨5, 5⟩, ⟨5, 10⟩]

/-- The offsets the claim predicts for `duplicate_objects_grid(2,3,5)` on a
unit-size object: spacing `sx + dist = 6`. -/
def claimedGridOffsets : List Pointf :=
  [⟨0, 0⟩, ⟨0, 6⟩, ⟨0, 12⟩, ⟨6, 0⟩, ⟨6, 6⟩, ⟨6, 12⟩]

/-- A two-instance shape map for the first-bin-only witness. -/
def smC3 : List ModelInstance :=
  [defaultModelInstance, { defaultModelInstance with offset := ⟨9, 9⟩ }]

/-- A two-group nesting result: item 0 in the first bin, item 1 in the
second. -/
def resC3 : List PackGroup := [[(0, ⟨5, 7, 0⟩)], [(1, ⟨9, 9, 0⟩)]]

/-! ### Helper lemmas -/

theorem aff_min (a t x y : ℚ) (ha : 0 ≤ a) :
    Min.min (a * x + t) (a * y + t) = a * Min.min x y + t := by
  rcases le_total x y with h | h
  · rw [min_eq_left (add_le_add_right (mul_le_mul_of_nonneg_left h ha) t), min_eq_left h]
  · rw [min_eq_right (add_le_add_right (mul_le_mul_of_nonneg_left h ha) t), min_eq_right h]

theorem aff_max (a t x y : ℚ) (ha : 0 ≤ a) :
    Max.max (a * x + t) (a * y + t) = a * Max.max x y + t := by
  rcases le_total x y with h | h
  · rw [max_eq_right (add_le_add_right (mul_le_mul_of_nonneg_left h ha) t), max_eq_right h]
  · rw [max_eq_left (add_le_add_right (mul_le_mul_of_nonneg_left h ha) t), max_eq_left h]

theorem mergePt_affMap (a t1 t2 t3 : ℚ) (ha : 0 ≤ a) (bb : BoundingBoxf3) (p : Pointf3) :
    (boxAff a t1 t2 t3 bb).mergePt (affMap a t1 t2 t3 p) = boxAff a t1 t2 t3 (bb.mergePt p) := by
  by_cases hd : bb.defined
  · simp [BoundingBoxf3.mergePt, boxAff, affMap, hd, aff_min _ _ _ _ ha, aff_max _ _ _ _ ha]
  · simp [BoundingBoxf3.mergePt, boxAff, affMap, hd]

theorem foldl_mergePt_affMap (a t1 t2 t3 : ℚ) (ha : 0 ≤ a) (ps : List Pointf3) :
    ∀ bb : BoundingBoxf3,
      (ps.map (affMap a t1 t2 t3)).foldl BoundingBoxf3.mergePt (boxAff a t1 t2 t3 bb) =
        boxAff a t1 t2 t3 (ps.foldl BoundingBoxf3.mergePt bb) := by
  induction ps with
  | nil => intro bb; simp
  | cons p ps ih =>
    intro bb
    simp only [List.map_cons, List.foldl_cons, mergePt_affMap a t1 t2 t3 ha, ih]

theorem bboxOfPoints_map_affMap (a t1 t2 t3 : ℚ) (ha : 0 ≤ a) (ps : List Pointf3) :
    bboxOfPoints (ps.map (affMap a t1 t2 t3)) = boxAff a t1 t2 t3 (bboxOfPoints ps) := by
  have h0 : boxAff a t1 t2 t3 emptyBox = emptyBox := by simp [boxAff, emptyBox]
  have h := foldl_mergePt_affMap a t1 t2 t3 ha ps emptyBox
  rw [h0] at h
  exact h

theorem spec_map_eq (c s sf tx ty : ℚ) :
    spec_transform_point c s sf tx ty = (affMap sf tx ty 0) ∘ (rotPt c s) := by
  funext v
  simp only [spec_transform_point, affMap, rotPt, Function.comp]
  exact Pointf3.ext (by ring) (by ring) (by ring)

theorem tmbbPost_eq_boxAff (inst : ModelInstance) (dt : Bool) (bbox : BoundingBoxf3)
    (hex : EPSILON < |inst.scaling_factor - 1| ∨ inst.scaling_factor = 1) :
    tmbbPost inst dt bbox =
      boxAff inst.scaling_factor (if dt then 0 else inst.offset.x)
        (if dt then 0 else inst.offset.y) 0 bbox := by
  obtain ⟨bmn, bmx, bd⟩ := bbox
  cases bd with
  | false => simp [tmbbPost, boxAff]
  | true =>
    rcases hex with hx | hx
    · cases dt <;>
        simp [tmbbPost, boxAff, affMap, hx] <;>
        and_intros <;> ring
    · have hc : ¬ (EPSILON < |inst.scaling_factor - 1|) := by
        rw [hx]; norm_num [EPSILON]
      cases dt <;> simp [tmbbPost, boxAff, affMap, hc, hx]

theorem pvs_foldl_eq (cosf sinf : ℚ → ℚ) (pv : BoundingBoxf3) :
    ∀ (vs : List ModelVolume) (insts : List ModelInstance),
      vs.foldl (pvsStep cosf sinf pv) insts =
        (match lastNonMod vs with
         | none => insts
         | some w =>
           insts.map fun inst =>
             { inst with
               print_volume_state := classifyPVS pv (vol_inst_bbox cosf sinf inst w) }) := by
  intro vs
  induction vs with
  | nil => intro insts; rfl
  | cons v vs ih =>
    intro insts
    by_cases hv : v.modifier
    · rw [List.foldl_cons]
      have hstep : pvsStep cosf sinf pv insts v = insts := by simp [pvsStep, hv]
      rw [hstep, ih insts]
      cases h : lastNonMod vs <;> simp [lastNonMod, h, hv]
    · rw [List.foldl_cons]
      have hstep : pvsStep cosf sinf pv insts v =
          insts.map fun inst =>
            { inst with
              print_volume_state := classifyPVS pv (vol_inst_bbox cosf sinf inst v) } := by
        simp [pvsStep, hv]
      rw [hstep, ih]
      cases h : lastNonMod vs with
      | none => simp [lastNonMod, h, hv]
      | some w =>
        simp only [lastNonMod, h, List.map_map]
        exact List.map_congr_left fun inst _ => rfl

theorem rawBBLoop_no_instances (cosf sinf : ℚ → ℚ) :
    ∀ (vs : List ModelVolume) (bb : BoundingBoxf3),
      ((∃ v ∈ vs, v.modifier = false) →
          rawBBLoop cosf sinf [] vs bb = Except.error CFail.confess) ∧
      ((∀ v ∈ vs, v.modifier = true) → rawBBLoop cosf sinf [] vs bb = Except.ok bb) := by
  intro vs
  induction vs with
  | nil =>
    intro bb
    exact ⟨fun h => absurd h (by simp), fun _ => rfl⟩
  | cons v vs ih =>
    intro bb
    by_cases hv : v.modifier
    · constructor
      · rintro ⟨w, hw, hmod⟩
        rcases List.mem_cons.mp hw with rfl | hw2
        · rw [hv] at hmod; cases hmod
        · have h2 := (ih bb).1 ⟨w, hw2, hmod⟩
          simpa [rawBBLoop, hv] using h2
      · intro hall
        have h2 := (ih bb).2 fun u hu => hall u (List.mem_cons_of_mem v hu)
        simpa [rawBBLoop, hv] using h2
    · constructor
      · intro _; simp [rawBBLoop, hv]
      · intro hall
        exact absurd (hall v (List.mem_cons_self v vs)) (by simp [hv])

theorem instBBLoop_no_instance (cosf sinf : ℚ → ℚ) (dt : Bool) :
    ∀ (vs : List ModelVolume) (bb : BoundingBoxf3),
      ((∃ v ∈ vs, v.modifier = false) →
          instBBLoop cosf sinf none dt vs bb = Except.error CFail.ub) ∧
      ((∀ v ∈ vs, v.modifier = true) → instBBLoop cosf sinf none dt vs bb = Except.ok bb) := by
  intro vs
  induction vs with
  | nil =>
    intro bb
    exact ⟨fun h => absurd h (by simp), fun _ => rfl⟩
  | cons v vs ih =>
    intro bb
    by_cases hv : v.modifier
    · constructor
      · rintro ⟨w, hw, hmod⟩
        rcases List.mem_cons.mp hw with rfl | hw2
        · rw [hv] at hmod; cases hmod
        · have h2 := (ih bb).1 ⟨w, hw2, hmod⟩
          simpa [instBBLoop, hv] using h2
      · intro hall
        have h2 := (ih bb).2 fun u hu => hall u (List.mem_cons_of_mem v hu)
        simpa [instBBLoop, hv] using h2
    · constructor
      · intro _; simp [instBBLoop, hv]
      · intro hall
        exact absurd (hall v (List.mem_cons_self v vs)) (by simp [hv])

theorem eraseFirstId_not_mem (a : ℕ) :
    ∀ l : List (ℕ × ModelObject), a ∉ l.map Prod.fst → eraseFirstId a l = l := by
  intro l
  induction l with
  | nil => intro _; rfl
  | cons x xs ih =>
    intro h
    have hx : ¬ (x.1 = a) := by
      intro he
      exact h (by simp [List.map_cons, he])
    have hxs : a ∉ xs.map Prod.fst := by
      intro hm
      exact h (by simp [List.map_cons, hm])
    simp [eraseFirstId, hx, ih hxs]

theorem catMap_const_nil (l : List α) : catMap (fun _ => ([] : List β)) l = [] := by
  induction l with
  | nil => rfl
  | cons a as ih => simp [catMap, ih]

theorem bounding_box_preserves_instances (cosf sinf : ℚ → ℚ) (o : ModelObject) :
    (o.bounding_box cosf sinf).2.instances = o.instances := by
  unfold ModelObject.bounding_box
  split <;> rfl

theorem modelBBLoop_instances (cosf sinf : ℚ → ℚ) :
    ∀ (l : List (ℕ × ModelObject)) (bb : BoundingBoxf3),
      (modelBBLoop cosf sinf l bb).2.map (fun p => p.2.instances) =
        l.map fun p => p.2.instances := by
  intro l
  induction l with
  | nil => intro bb; rfl
  | cons x rest ih =>
    intro bb
    obtain ⟨oid, o⟩ := x
    simp [modelBBLoop, ih, bounding_box_preserves_instances]

theorem modifyAt_getElem?_ne (g : α → α) :
    ∀ (l : List α) (n i : ℕ), n ≠ i → (modifyAt g n l)[i]? = l[i]? := by
  intro l
  induction l with
  | nil => intro n i _; cases n <;> rfl
  | cons a as ih =>
    intro n i hni
    cases n with
    | zero =>
      cases i with
      | zero => exact absurd rfl hni
      | succ j => simp [modifyAt]
    | succ n2 =>
      cases i with
      | zero => simp [modifyAt]
      | succ j =>
        simp only [modifyAt, List.getElem?_cons_succ]
        exact ih n2 j fun he => hni (by rw [he])

theorem applyResult_getElem?_of_not_mem (i : ℕ) :
    ∀ (group : PackGroup) (off : ℤ) (sm : List ModelInstance),
      (∀ r ∈ group, r.1 ≠ i) → (applyResult group off sm)[i]? = sm[i]? := by
  intro group
  induction group with
  | nil => intro off sm _; rfl
  | cons r rs ih =>
    intro off sm h
    have h1 : r.1 ≠ i := h r (List.mem_cons_self r rs)
    have h2 : ∀ q ∈ rs, q.1 ≠ i := fun q hq => h q (List.mem_cons_of_mem r hq)
    calc (applyResult (r :: rs) off sm)[i]?
        = (applyResult rs off (modifyAt (setFromItem r.2 off) r.1 sm))[i]? := rfl
      _ = (modifyAt (setFromItem r.2 off) r.1 sm)[i]? := ih off _ h2
      _ = sm[i]? := modifyAt_getElem?_ne _ sm r.1 i h1

/-! ### Claim theorems

The rational arithmetic of Batteries is `@[irreducible]`, which blocks the
`decide`-based evaluation of the embedded program on concrete inputs; the
attribute below restores ordinary unfolding locally (the kernel itself
always unfolds these definitions). -/

attribute [local semireducible] Rat.mul Rat.inv Rat.add Rat.sub

/-- C1: the claim says `Model::arrange_objects` returns true iff the
arrangement succeeded, and in particular that on the fallback path without
a bin success means a valid layout was found and applied. The code violates
this: on the concrete one-instance model `mArr` with no bin, the external
rectangular packer succeeds (`extArr.geomFirst = true`), the computed
layout IS applied (the single instance ends at position − center =
(3,4) − (1/2,1/2) = (5/2,7/2)), yet the function returns `false`, because
the fallback branch never sets its `ret` variable after initialising it to
`false`. -/
theorem arrange_objects_fallback_false_despite_success :
    (Model.arrange_objects cosId sinId mArr none extArr).2 = false ∧
    extArr.geomFirst = true ∧
    ((flatInstancesOf (Model.arrange_objects cosId sinId mArr none extArr).1).map
        fun i => i.offset) = [⟨5 / 2, 7 / 2⟩] := by
  refine ⟨rfl, rfl, ?_⟩
  decide

/-- C2: the objective function scores a fitting candidate as distance/norm,
penalises a non-fitting candidate with a bin as `2 * penality - score`, and
— given that `penality` bounds every achievable distance score, strictly so
for an in-bin placement at finite distance from the center — every
non-fitting placement scores strictly larger (worse under minimisation)
than any such in-bin placement. -/
theorem object_function_fit_dominates (penality norm d1 d2 : ℚ)
    (hcap1 : d1 / norm ≤ penality) (hcap2 : d2 / norm < penality) :
    (∀ (hb : Bool) (p n dd : ℚ), object_function hb p n dd true = dd / n) ∧
    object_function true penality norm d1 false = 2 * penality - d1 / norm ∧
    object_function true penality norm d2 true < object_function true penality norm d1 false := by
  refine ⟨?_, rfl, ?_⟩
  · intro hb p n dd
    cases hb <;> rfl
  · show d2 / norm < 2 * penality - d1 / norm
    linarith

/-- Witness for C2 at penality 100, norm 1, non-fitting distance 50,
in-bin distance 30. -/
theorem object_function_fit_dominates_witness :
    object_function true 100 1 30 true < object_function true 100 1 50 false :=
  (object_function_fit_dominates 100 1 50 30 (by norm_num) (by norm_num)).2.2

/-- C3: with `first_bin_only = true` only the first pack group is written
back; any instance whose index does not occur in the first group — in
particular every item that did not fit into the first bin — keeps its
pre-call offset and rotation. -/
theorem arrange_first_bin_only_keeps_unplaced (sm : List ModelInstance)
    (result : List PackGroup) (bw : ℤ) (i : ℕ)
    (h : ∀ r ∈ result.headD [], r.1 ≠ i) :
    (arr_applyAll true bw result sm)[i]? = sm[i]? := by
  unfold arr_applyAll
  exact applyResult_getElem?_of_not_mem i _ 0 sm h

/-- Witness for C3: of two instances, only index 0 is in the first pack
group; the instance at index 1 is untouched. -/
theorem arrange_first_bin_only_keeps_unplaced_witness :
    (arr_applyAll true 100 resC3 smC3)[1]? = smC3[1]? :=
  arrange_first_bin_only_keeps_unplaced smC3 resC3 100 1 (by decide)

/-- C4 (counterexample): the claim asserts that for EVERY scale `s` the
returned box is the componentwise min/max box of the mapped vertices. It is
not: with the negative scale -2 the code multiplies the already-computed
min/max corners, producing a box with inverted corners, and with a scale
inside the `EPSILON` band around 1 the rescaling is skipped while the
claimed box is scaled. -/
theorem transform_mesh_bbox_counterexample :
    instNeg.transform_mesh_bounding_box cosId sinId meshB true ≠
      spec_transformed_mesh_bbox cosId sinId instNeg meshB true ∧
    instEps.transform_mesh_bounding_box cosId sinId meshB true ≠
      spec_transformed_mesh_bbox cosId sinId instEps meshB true := by
  refine ⟨?_, ?_⟩ <;> decide

/-- C4 (amended): for a NONNEGATIVE scale that either differs from 1 by
more than `EPSILON` or equals 1 exactly, `transform_mesh_bounding_box`
returns the componentwise min/max box of the vertices mapped by
`v' = R_z(θ)·(s·v)` (plus the x/y offset unless `dont_translate`); a
zero-facet mesh yields the empty (undefined) box; and a scale within
`EPSILON` of 1 skips the rescaling step, i.e. behaves exactly as scale 1. -/
theorem transform_mesh_bbox_amended (cosf sinf : ℚ → ℚ) (inst : ModelInstance)
    (mesh : TriangleMesh) (dt : Bool) :
    (0 ≤ inst.scaling_factor →
      (EPSILON < |inst.scaling_factor - 1| ∨ inst.scaling_factor = 1) →
      inst.transform_mesh_bounding_box cosf sinf mesh dt =
        spec_transformed_mesh_bbox cosf sinf inst mesh dt) ∧
    inst.transform_mesh_bounding_box cosf sinf ([] : TriangleMesh) dt = emptyBox ∧
    (|inst.scaling_factor - 1| ≤ EPSILON →
      inst.transform_mesh_bounding_box cosf sinf mesh dt =
        ModelInstance.transform_mesh_bounding_box cosf sinf
          { inst with scaling_factor := 1 } mesh dt) := by
  refine ⟨?_, rfl, ?_⟩
  · intro hs hex
    unfold ModelInstance.transform_mesh_bounding_box spec_transformed_mesh_bbox
    rw [spec_map_eq, ← List.map_map, bboxOfPoints_map_affMap _ _ _ _ hs]
    exact tmbbPost_eq_boxAff inst dt _ hex
  · intro h
    have hc : ¬ (EPSILON < |inst.scaling_factor - 1|) := not_lt.mpr h
    have hc1 : ¬ (EPSILON < |(1 : ℚ) - 1|) := by norm_num [EPSILON]
    have hpost : ∀ B : BoundingBoxf3,
        tmbbPost inst dt B = tmbbPost { inst with scaling_factor := 1 } dt B := by
      intro B
      obtain ⟨bmn, bmx, bd⟩ := B
      cases bd <;> simp [tmbbPost, hc, hc1]
    exact hpost _

/-- Witness for C4 (amended), at a 3-4-5 rotation, scale 2 and offset
(1,2). -/
theorem transform_mesh_bbox_amended_witness :
    instW.transform_mesh_bounding_box cosPyth sinPyth meshB false =
      spec_transformed_mesh_bbox cosPyth sinPyth instW meshB false :=
  (transform_mesh_bbox_amended cosPyth sinPyth instW meshB false).1 (by norm_num [instW])
    (Or.inl (by norm_num [instW, EPSILON]))

/-- C5 (counterexample): the claim says the stored state classifies the
snug box over ALL the object's non-modifier geometry. On `objC5` —
volume A inside the print volume, volume B disjoint from it — the combined
snug box intersects the print volume without being contained, so the claim
predicts `PVS_Partly_Outside`; the code classifies per volume and the last
volume wins, storing `PVS_Fully_Outside`. -/
theorem check_print_volume_state_counterexample :
    ((objC5.check_instances_print_volume_state cosId sinId pv0).instances.map
        fun i => i.print_volume_state) = [PVS.PVS_Fully_Outside] ∧
    classifyPVS pv0 (spec_instance_snug_bbox cosId sinId objC5 defaultModelInstance) =
      PVS.PVS_Partly_Outside ∧
    PVS.PVS_Fully_Outside ≠ PVS.PVS_Partly_Outside := by
  refine ⟨?_, ?_, ?_⟩ <;> decide

/-- C5 (amended): `check_instances_print_volume_state` changes no geometry
— volumes, cache, and every instance's offset/rotation/scale are untouched
— and every instance's stored state is the classification of the snug
transformed box of the LAST non-modifier volume (states are untouched when
there is none); for an object with exactly one non-modifier volume this is
the classification the claim describes. -/
theorem check_print_volume_state_amended (cosf sinf : ℚ → ℚ) (pv : BoundingBoxf3)
    (o : ModelObject) :
    (o.check_instances_print_volume_state cosf sinf pv).volumes = o.volumes ∧
    (o.check_instances_print_volume_state cosf sinf pv).m_bounding_box = o.m_bounding_box ∧
    (o.check_instances_print_volume_state cosf sinf pv).m_bounding_box_valid =
      o.m_bounding_box_valid ∧
    ((o.check_instances_print_volume_state cosf sinf pv).instances.map
        fun i => (i.offset, i.rotation, i.scaling_factor)) =
      (o.instances.map fun i => (i.offset, i.rotation, i.scaling_factor)) ∧
    (o.check_instances_print_volume_state cosf sinf pv).instances =
      (match lastNonMod o.volumes with
       | none => o.instances
       | some w =>
         o.instances.map fun inst =>
           { inst with
             print_volume_state := classifyPVS pv (vol_inst_bbox cosf sinf inst w) }) := by
  refine ⟨rfl, rfl, rfl, ?_, ?_⟩
  · show ((o.volumes.foldl (pvsStep cosf sinf pv) o.instances).map
        fun i => (i.offset, i.rotation, i.scaling_factor)) =
      (o.instances.map fun i => (i.offset, i.rotation, i.scaling_factor))
    rw [pvs_foldl_eq]
    cases h : lastNonMod o.volumes with
    | none => rfl
    | some w =>
      rw [List.map_map]
      exact List.map_congr_left fun inst _ => rfl
  · exact pvs_foldl_eq cosf sinf pv o.volumes o.instances

/-- C6: the claim predicts `duplicate_objects_grid(2, 3, 5)` on a
unit-size object produces offsets spaced by `size + dist = 6`. The code
clears the instances BEFORE reading `bounding_box().size()`, so the
recomputed instance-transformed box is empty, the size is (0,0,0), and the
offsets are spaced by `dist` alone: the claimed offset (0,6) is never
produced. The second conjunct records that the object's mesh really has
unit size. -/
theorem duplicate_objects_grid_spacing_bug :
    (Model.duplicate_objects_grid cosId sinId mGrid 2 3 5).map
        (fun m2 => (catMap (fun p => p.2.instances) m2.objects).map fun i => i.offset) =
      Except.ok actualGridOffsets ∧
    (mesh_bounding_box meshUnit).size = ⟨1, 1, 1⟩ ∧
    Pointf.mk 0 6 ∈ claimedGridOffsets ∧
    Pointf.mk 0 6 ∉ actualGridOffsets := by
  refine ⟨rfl, ?_, ?_, ?_⟩ <;> decide

/-- C7 (counterexample): the claim says every mutation of volumes or
instances — add, delete, transform — invalidates the cached box.
`translate` does not: after warming the cache of `oRot` (one quarter-turn
rotated instance) and translating by (1,0,0), the validity flag is still
set, and the kept cache moreover differs from what a recomputation returns,
because translating the cached box by (1,0,0) is wrong for a rotated
instance. -/
theorem translate_keeps_cache_valid_counterexample :
    ((oRot.bounding_box cosQuarter sinQuarter).2.translate 1 0 0).m_bounding_box_valid = true ∧
    ((oRot.bounding_box cosQuarter sinQuarter).2.translate 1 0 0).m_bounding_box ≠
      ((((oRot.bounding_box cosQuarter sinQuarter).2.translate 1 0 0).invalidate_bounding_box
         ).bounding_box cosQuarter sinQuarter).1 := by
  refine ⟨rfl, ?_⟩
  decide

/-- C7 (amended): every mutation of volumes or instances EXCEPT `translate`
— add/delete/clear volume, add/delete/clear instance, scale, rotate,
mirror, non-null transform — clears the validity flag of the cached
bounding box; `translate` instead leaves the flag unchanged and translates
the cached box in place when it is valid (an update that is stale for
instances with nontrivial rotation or scale, as the counterexample
records). -/
theorem cache_invalidation_amended (o : ModelObject) (mesh : TriangleMesh)
    (i : ModelInstance) (idx : ℕ) (x y z : ℚ) (versor : Pointf3)
    (g : Pointf3 → Pointf3) (ax : Axis) :
    (o.add_volume mesh).m_bounding_box_valid = false ∧
    (o.delete_volume idx).m_bounding_box_valid = false ∧
    o.clear_volumes.m_bounding_box_valid = false ∧
    o.add_instance.m_bounding_box_valid = false ∧
    (o.add_instance_copy i).m_bounding_box_valid = false ∧
    (o.delete_instance idx).m_bounding_box_valid = false ∧
    o.clear_instances.m_bounding_box_valid = false ∧
    (o.scale versor).m_bounding_box_valid = false ∧
    (o.rotate g).m_bounding_box_valid = false ∧
    (o.mirror ax).m_bounding_box_valid = false ∧
    (o.transform (some g)).m_bounding_box_valid = false ∧
    (o.translate x y z).m_bounding_box_valid = o.m_bounding_box_valid ∧
    (o.translate x y z).m_bounding_box =
      (if o.m_bounding_box_valid then o.m_bounding_box.translate x y z
       else o.m_bounding_box) ∧
    (o.translate x y z).instances = o.instances :=
  ⟨rfl, rfl, rfl, rfl, rfl, rfl, rfl, rfl, rfl, rfl, rfl, rfl, rfl, rfl⟩

/-- C8 (counterexample): the claim says both accessors fail loudly on zero
instances. Only `raw_bounding_box` CONFESSes (and only when a non-modifier
volume exists); `instance_bounding_box` has no check at all — on `oNoInst`
(one non-modifier volume, zero instances) it runs into the unchecked
out-of-bounds `instances[idx]` access (undefined behavior), which is not a
loud failure; and on `oNoVols` (no volumes, zero instances) even
`raw_bounding_box` silently returns the empty box. -/
theorem zero_instance_bbox_counterexample :
    oNoInst.instances = [] ∧
    failsLoudly (ModelObject.instance_bounding_box cosId sinId oNoInst 0 true) = false ∧
    failsLoudly (ModelObject.raw_bounding_box cosId sinId oNoInst) = true ∧
    oNoVols.instances = [] ∧
    ModelObject.raw_bounding_box cosId sinId oNoVols = Except.ok emptyBox :=
  ⟨rfl, rfl, rfl, rfl, rfl⟩

/-- C8 (amended): on an object with zero instances, `raw_bounding_box`
fails loudly (CONFESS) exactly when some non-modifier volume exists and
silently returns the empty box otherwise, while `instance_bounding_box`
never fails loudly: when a non-modifier volume exists it performs the
unchecked out-of-bounds access (undefined behavior), and otherwise it too
silently returns the empty box. -/
theorem zero_instance_bbox_amended (cosf sinf : ℚ → ℚ) (o : ModelObject) (idx : ℕ)
    (dt : Bool) (h0 : o.instances = []) :
    ((∃ v ∈ o.volumes, v.modifier = false) →
        o.raw_bounding_box cosf sinf = Except.error CFail.confess ∧
        o.instance_bounding_box cosf sinf idx dt = Except.error CFail.ub) ∧
    ((∀ v ∈ o.volumes, v.modifier = true) →
        o.raw_bounding_box cosf sinf = Except.ok emptyBox ∧
        o.instance_bounding_box cosf sinf idx dt = Except.ok emptyBox) := by
  unfold ModelObject.raw_bounding_box ModelObject.instance_bounding_box
  rw [h0]
  constructor
  · intro hex
    exact ⟨(rawBBLoop_no_instances cosf sinf o.volumes emptyBox).1 hex,
           (instBBLoop_no_instance cosf sinf dt o.volumes emptyBox).1 hex⟩
  · intro hall
    exact ⟨(rawBBLoop_no_instances cosf sinf o.volumes emptyBox).2 hall,
           (instBBLoop_no_instance cosf sinf dt o.volumes emptyBox).2 hall⟩

/-- Witness for C8 (amended) on the one-non-modifier-volume object. -/
theorem zero_instance_bbox_amended_witness :
    ModelObject.raw_bounding_box cosId sinId oNoInst = Except.error CFail.confess ∧
    ModelObject.instance_bounding_box cosId sinId oNoInst 0 true = Except.error CFail.ub :=
  (zero_instance_bbox_amended cosId sinId oNoInst 0 true rfl).1 (by decide)

/-- C9: `Model::delete_object(ModelObject*)` with a null pointer, or with a
pointer that is not one of the model's owned objects, leaves the model —
object sequence and materials alike — completely unchanged, and the
function (being `void` with no throw) reports no error. -/
theorem delete_object_foreign_noop (m : Model) (a : ℕ)
    (h : a ∉ m.objects.map Prod.fst) :
    Model.delete_object m none = m ∧ Model.delete_object m (some a) = m := by
  refine ⟨rfl, ?_⟩
  show { m with objects := eraseFirstId a m.objects } = m
  rw [eraseFirstId_not_mem a m.objects h]

/-- Witness for C9: deleting address 3 from a model owning only address 7. -/
theorem delete_object_foreign_noop_witness :
    Model.delete_object mDel none = mDel ∧ Model.delete_object mDel (some 3) = mDel :=
  delete_object_foreign_noop mDel 3 (by decide)

/-- C10: `Model::duplicate` with `copies_num = 1` asks the packer for zero
positions, which `_arrange` answers trivially with success on the empty
size list — so the fatal abort is never reached — and the per-object
append loop adds no instance: every object's instance list is returned
unchanged. -/
theorem duplicate_one_noop (cosf sinf : ℚ → ℚ) (m : Model) (bb : Option BoundingBoxf)
    (ext : ArrangeExt) :
    (Model.duplicate cosf sinf m 1 bb ext).map
        (fun m2 => m2.objects.map fun p => p.2.instances) =
      Except.ok (m.objects.map fun p => p.2.instances) := by
  unfold Model.duplicate Model.bounding_box
  simp only [Nat.sub_self, List.replicate_zero, _arrange, List.isEmpty_nil, if_true]
  simp only [Except.map, List.map_map, List.map_nil, catMap_const_nil, List.append_nil]
  have h := modelBBLoop_instances cosf sinf m.objects emptyBox
  simpa [Function.comp] using h

end Slic3r
